import Mathlib

/-!
Shallow embedding of the RAS-client React application (TypeScript), covering:
sensor readings and threshold-based alert classification, real-time
`new-sensor-data` event handlers and their in-memory windows, route guards,
the axios response interceptor, threshold management handlers, the dashboard
fetch retry logic and socket options, CSV export, and the device-dashboard
fetch time window.

JS numbers used for sensor values and thresholds are modelled as `Int`
(the claims are purely order-based), timestamps as epoch milliseconds.
-/

namespace RAS

/-! ### Data model -/

/-- Alert levels: `'normal' | 'warning' | 'critical'`. -/
inductive AlertLevel
  | normal
  | warning
  | critical
deriving DecidableEq, Repr

/-- A threshold record (from `thresholdService`'s `SensorThreshold`):
sensor-type-specific ideal/warning/critical numeric ranges. -/
structure Threshold where
  idealMin : Int
  idealMax : Int
  warningMin : Int
  warningMax : Int
  criticalMin : Int
  criticalMax : Int
deriving DecidableEq, Repr

/-- The `device` field of a streamed reading: either a string id or a
populated object with `_id` (DeviceDashboard checks
`typeof newReading.device === 'string'` vs `'object'`). -/
inductive DeviceRef
  | byId (id : String)
  | populated (id : String)
deriving DecidableEq, Repr

/-- A sensor reading (`SensorReading` in SensorData.tsx / DeviceDashboard.tsx).
`timestamp` is epoch milliseconds (`new Date(...).getTime()`);
`alertLevel`/`alertMessage` are optional fields. -/
structure SensorReading where
  device : DeviceRef
  sensorType : String
  value : Int
  unit : String
  timestamp : Nat
  isAlert : Bool
  alertLevel : Option AlertLevel
  alertMessage : Option String
deriving DecidableEq, Repr

/-! ### Threshold-based alert classification
(`getAlertLevel` in SensorData.tsx lines 473-499 and DeviceDashboard.tsx
lines 352-365; the two copies have identical logic.) -/

/-- `getAlertLevel`: with a threshold record, classify the reading's value
against critical then warning bounds; without one, fall back to the
reading's own `alertLevel || 'normal'`. -/
def getAlertLevel (thresholds : Option Threshold) (reading : SensorReading) : AlertLevel :=
  match thresholds with
  | some t =>
    if reading.value < t.criticalMin || reading.value > t.criticalMax then
      .critical
    else if reading.value < t.warningMin || reading.value > t.warningMax then
      .warning
    else
      .normal
  | none => reading.alertLevel.getD .normal

/-! ### Authentication state and route guards
(AuthContext.tsx computed properties, ProtectedRoute.tsx `SuperAdminRoute`,
and `AdminRoute`.) -/

/-- The authenticated user as stored in `AuthContext` (only the `role`
field matters to the guards). -/
structure User where
  role : String
deriving DecidableEq, Repr

/-- `AuthContext` state: the optional user and the `loading` flag. -/
structure AuthState where
  user : Option User
  loading : Bool
deriving DecidableEq, Repr

/-- `const isAuthenticated = !!user`. -/
def isAuthenticated (s : AuthState) : Bool := s.user.isSome

/-- `const isSuperAdmin = user?.role === 'superadmin'`. -/
def isSuperAdmin (s : AuthState) : Bool :=
  match s.user with
  | some u => u.role == "superadmin"
  | none => false

/-- `const isAdmin = user?.role === 'superadmin' || user?.role === 'projectadmin'`. -/
def isAdmin (s : AuthState) : Bool :=
  match s.user with
  | some u => u.role == "superadmin" || u.role == "projectadmin"
  | none => false

/-- What a route-guard component renders. -/
inductive RenderResult
  | loadingView
  | navigate (dest : String)
  | children
deriving DecidableEq, Repr

/-- `AdminRoute`: loading view while loading; `<Navigate to="/login" />` when
not authenticated; children when `isAdmin`, else `<Navigate to="/" />`. -/
def AdminRoute (s : AuthState) : RenderResult :=
  if s.loading then .loadingView
  else if !isAuthenticated s then .navigate "/login"
  else if isAdmin s then .children else .navigate "/"

/-- `SuperAdminRoute`: same shape, gated on `isSuperAdmin`. -/
def SuperAdminRoute (s : AuthState) : RenderResult :=
  if s.loading then .loadingView
  else if !isAuthenticated s then .navigate "/login"
  else if isSuperAdmin s then .children else .navigate "/"

/-! ### Axios response interceptor (axiosConfig.ts lines 32-48) -/

/-- The originating request's config; `retry` models the `_retry` marker. -/
structure RequestConfig where
  retry : Bool
deriving DecidableEq, Repr

/-- An axios error: `error.response?.status` (absent on network errors)
and `error.config`. -/
structure HttpError where
  status : Option Nat
  config : RequestConfig
deriving DecidableEq, Repr

/-- Browser-visible state the interceptor can touch: the localStorage
`'user'` entry and `window.location.href`. -/
structure BrowserState where
  storedUser : Option String
  location : String
deriving DecidableEq, Repr

/-- Result of running the response-error interceptor: the (possibly
mutated) request config, the browser state, and the settled promise. -/
structure InterceptOutcome where
  config : RequestConfig
  browser : BrowserState
  promise : Except HttpError Unit
deriving Repr

/-- The response-error interceptor: on a 401 whose request is not yet
marked `_retry`, mark it, remove the stored `'user'` entry and redirect to
`/login`; in every case return `Promise.reject(error)` (the error carries
the mutated config, since `originalRequest` aliases `error.config`). -/
def responseErrorInterceptor (e : HttpError) (b : BrowserState) : InterceptOutcome :=
  if e.status == some 401 && !e.config.retry then
    let cfg : RequestConfig := { retry := true }
    { config := cfg
      browser := { storedUser := none, location := "/login" }
      promise := .error { e with config := cfg } }
  else
    { config := e.config, browser := b, promise := .error e }

/-! ### Threshold management handlers
(DeviceThresholds.tsx `handleSaveThreshold` / `handleDeleteThreshold`;
ThresholdManagement `handleSubmit` / `handleDelete`.) -/

/-- Editable threshold values held in component state (the numeric fields
of a `SensorThreshold` plus its unit). -/
structure ThresholdValues where
  values : Threshold
  unit : String
deriving DecidableEq, Repr

/-- Backend API requests issued by the threshold handlers through
`thresholdService`. -/
inductive ApiRequest
  | updateDeviceThreshold (deviceId : String) (sensorType : String) (data : ThresholdValues)
  | deleteDeviceThreshold (deviceId : String) (sensorType : String)
  | updateDefaultThreshold (id : Option String) (data : ThresholdValues)
  | deleteThreshold (id : String)
deriving DecidableEq, Repr

/-- `handleSaveThreshold` in DeviceThresholds.tsx: with no selected sensor
type it returns early; otherwise it calls
`thresholdService.updateDeviceThreshold(deviceId, thresholdData)`. -/
def handleSaveThreshold (deviceId : String) (selectedSensorType : Option String)
    (deviceThresholds : String → ThresholdValues) : List ApiRequest :=
  match selectedSensorType with
  | none => []
  | some st => [.updateDeviceThreshold deviceId st (deviceThresholds st)]

/-- `handleDeleteThreshold` in DeviceThresholds.tsx: with no selected sensor
type it returns early; otherwise it calls
`thresholdService.deleteDeviceThreshold(deviceId, selectedSensorType)`. -/
def handleDeleteThreshold (deviceId : String) (selectedSensorType : Option String) :
    List ApiRequest :=
  match selectedSensorType with
  | none => []
  | some st => [.deleteDeviceThreshold deviceId st]

/-- ThresholdManagement component state relevant to `handleSubmit`. -/
structure TMState where
  isEditing : Bool
  isAdding : Bool
  editingId : Option String
deriving DecidableEq, Repr

/-- ThresholdManagement `handleSubmit`: editing an existing record calls
`thresholdService.updateDefaultThreshold({...formData, _id})`; adding calls
`updateDefaultThreshold(formData)`; otherwise nothing is sent. -/
def tmHandleSubmit (st : TMState) (formData : ThresholdValues) : List ApiRequest :=
  if st.isEditing && st.editingId.isSome then
    [.updateDefaultThreshold st.editingId formData]
  else if st.isAdding then
    [.updateDefaultThreshold none formData]
  else []

/-- ThresholdManagement `handleDelete`: after `window.confirm`, calls
`thresholdService.deleteThreshold(id)`. -/
def tmHandleDelete (confirmed : Bool) (id : String) : List ApiRequest :=
  if confirmed then [.deleteThreshold id] else []

/-- Whether an API request transmits a create/update/delete of threshold
data (every constructor of `ApiRequest` does). -/
def mutatesThresholdData : ApiRequest → Bool
  | .updateDeviceThreshold _ _ _ => true
  | .deleteDeviceThreshold _ _ => true
  | .updateDefaultThreshold _ _ => true
  | .deleteThreshold _ => true

/-! ### Dashboard fetch retry and socket reconnection options
(Dashboard `fetchDashboardData` catch block; `io(API_URL, {...})` options
in the socket module.) -/

/-- What the Dashboard's `fetchDashboardData` catch block does, as a
function of the current `retryCount`. -/
inductive FetchErrorAction
  | scheduleRetry (nextRetryCount : Nat) (delayMs : Nat)
  | giveUp
deriving DecidableEq, Repr

/-- The catch block: `if (retryCount < 3)` schedule `setRetryCount(prev =>
prev + 1)` after `Math.pow(2, retryCount) * 1000` ms (which re-runs the
fetch effect), else toast a final failure. -/
def dashboardFetchErrorAction (retryCount : Nat) : FetchErrorAction :=
  if retryCount < 3 then .scheduleRetry (retryCount + 1) (2 ^ retryCount * 1000)
  else .giveUp

/-- socket.io client options. -/
structure SocketOptions where
  autoConnect : Bool
  reconnection : Bool
  reconnectionAttempts : Nat
  reconnectionDelay : Nat
  reconnectionDelayMax : Nat
  timeout : Nat
  forceNew : Bool
deriving DecidableEq, Repr

/-- The options object passed to `io(API_URL, {...})` in the socket
module. -/
def socketOptions : SocketOptions :=
  { autoConnect := false
    reconnection := true
    reconnectionAttempts := 5
    reconnectionDelay := 1000
    reconnectionDelayMax := 5000
    timeout := 20000
    forceNew := false }

/-! ### Real-time `new-sensor-data` handlers and in-memory windows -/

/-- The JS sort comparator `(a, b) => new Date(a.timestamp).getTime() -
new Date(b.timestamp).getTime()`, as the Boolean order it sorts by. -/
def tsLe (a b : SensorReading) : Bool := a.timestamp ≤ b.timestamp

/-- DeviceDashboard's guard on a streamed reading:
`(typeof device === 'string' && device === id) ||
 (typeof device === 'object' && device._id === id)`. -/
def deviceMatches (d : DeviceRef) (id : String) : Bool :=
  match d with
  | .byId s => s == id
  | .populated i => i == id

/-- DeviceDashboard per-sensor-type window update: append the new reading,
re-sort by timestamp (`mergeSort` models the stable JS `Array.sort`), and
`shift()` the oldest entry when the window exceeds 100. -/
def updateReadings (prev : List SensorReading) (r : SensorReading) : List SensorReading :=
  let updatedReadings := (prev ++ [r]).mergeSort tsLe
  if updatedReadings.length > 100 then updatedReadings.tail else updatedReadings

/-- DeviceDashboard `handleNewSensorData` on the per-sensor-type reading
map (`prevData`, modelled as an association list): ignore readings for other
devices or absent sensor types, otherwise update that type's window. -/
def handleNewSensorDataDD (id : String)
    (prevData : List (String × List SensorReading)) (r : SensorReading) :
    List (String × List SensorReading) :=
  if deviceMatches r.device id then
    if (prevData.lookup r.sensorType).isSome then
      prevData.map (fun p => if p.1 == r.sensorType then (p.1, updateReadings p.2 r) else p)
    else prevData
  else prevData

/-- SensorData `handleNewSensorData` state update: append the new reading
and re-sort by timestamp (no cap on the state list). -/
def sensorDataStep (prev : List SensorReading) (r : SensorReading) : List SensorReading :=
  (prev ++ [r]).mergeSort tsLe

/-- The chart.js buffer SensorData mutates directly: parallel label and
value arrays. -/
structure ChartBuffer where
  labels : List String
  data : List Int
deriving DecidableEq, Repr

/-- SensorData's direct chart update: push the new label and value, and
when the buffer exceeds 100 points `shift()` both arrays. -/
def chartPush (c : ChartBuffer) (timeLabel : String) (value : Int) : ChartBuffer :=
  let labels := c.labels ++ [timeLabel]
  let data := c.data ++ [value]
  if labels.length > 100 then { labels := labels.tail, data := data.tail }
  else { labels := labels, data := data }

/-- A recent-data entry on the Dashboard (its `SensorData` interface;
`device` is a plain id string there). -/
structure DashReading where
  device : String
  sensorType : String
  value : Int
  timestamp : Nat
deriving DecidableEq, Repr

/-- `arr.slice(-n)`: the last `n` elements of the array. -/
def jsSliceLast (n : Nat) (l : List α) : List α := l.drop (l.length - n)

/-- The Dashboard's `new-sensor-data` handler: drop any previous entry for
the same (device, sensorType) pair, append the new reading, keep the last
50 (`slice(-50)`). -/
def handleDashboardNewData (prev : List DashReading) (d : DashReading) : List DashReading :=
  let filtered := prev.filter
    (fun item => !(item.device == d.device && item.sensorType == d.sensorType))
  jsSliceLast 50 (filtered ++ [d])

/-- The (device, sensorType) key the Dashboard handler deduplicates by. -/
def dashKey (d : DashReading) : String × String := (d.device, d.sensorType)

/-! ### CSV export (`exportToCSV` in SensorData.tsx lines 632-663) -/

/-- The `csvHeader` array. -/
def csvHeader : List String :=
  ["Timestamp", "Sensor Type", "Value", "Unit", "Is Alert", "Alert Message"]

/-- One element of `csvRows`; `fmt` models
`new Date(timestamp).toLocaleString()` (locale rendering is outside the
embedding). -/
def csvRow (fmt : Nat → String) (r : SensorReading) : List String :=
  [fmt r.timestamp, r.sensorType, toString r.value, r.unit,
    if r.isAlert then "Yes" else "No", r.alertMessage.getD ""]

/-- The array `[csvHeader.join(','), ...csvRows.map(row => row.join(','))]`
that the final `join('\n')` is applied to. -/
def csvLines (fmt : Nat → String) (sensorData : List SensorReading) : List String :=
  String.intercalate "," csvHeader ::
    sensorData.map (fun r => String.intercalate "," (csvRow fmt r))

/-- The export outcome: a toast error and no file, or a saved file. -/
inductive ExportResult
  | error (msg : String)
  | file (content : String)
deriving DecidableEq, Repr

/-- `exportToCSV`: empty data yields the 'No data to export' toast and no
file; otherwise the joined CSV content is saved.  (`sensorData` is a `List`
here, so the `!Array.isArray(sensorData)` disjunct of the source's guard is
always false.) -/
def exportToCSV (fmt : Nat → String) (sensorData : List SensorReading) : ExportResult :=
  if sensorData.length = 0 then .error "No data to export"
  else .file (String.intercalate "\n" (csvLines fmt sensorData))

/-! ### DeviceDashboard fetch window (`fetchData`, lines 122-150) -/

/-- Milliseconds per hour. -/
def msPerHour : Int := 3600000

/-- `Date.prototype.getHours` at a fixed zero offset: the hour-of-day field
of an epoch-milliseconds instant. -/
def jsGetHours (t : Int) : Int := t / msPerHour % 24

/-- `d.setHours(h)`: replace the hour-of-day field (rolling over into the
date), keeping minutes/seconds/milliseconds. -/
def jsSetHours (t : Int) (h : Int) : Int :=
  t - jsGetHours t * msPerHour + h * msPerHour

/-- The values offered by the DeviceDashboard time-range `<select>`. -/
def timeRangeOptions : List String := ["1h", "6h", "24h", "7d"]

/-- The query window `fetchData` computes: `endDate = new Date()`,
`startDate = new Date()`, `startDate.setHours(endDate.getHours() - 24)`;
the `timeRange` state is never consulted. -/
def fetchWindow (timeRange : String) (now : Int) : Int × Int :=
  (jsSetHours now (jsGetHours now - 24), now)

end RAS

namespace RAS

/-- C1: For every sensor reading and every applicable threshold record, the
client-side alert classification assigns exactly one level: 'critical' iff
the value is strictly below `criticalMin` or strictly above `criticalMax`;
otherwise 'warning' iff the value is strictly below `warningMin` or strictly
above `warningMax`; otherwise 'normal'.  With no threshold record, the
classification is the reading's own `alertLevel` field, defaulting to
'normal' when absent. -/
theorem getAlertLevel_classification (t : Threshold) (r : SensorReading) :
    (getAlertLevel (some t) r = .critical ↔
      (r.value < t.criticalMin ∨ t.criticalMax < r.value)) ∧
    (getAlertLevel (some t) r = .warning ↔
      (¬(r.value < t.criticalMin ∨ t.criticalMax < r.value) ∧
        (r.value < t.warningMin ∨ t.warningMax < r.value))) ∧
    (getAlertLevel (some t) r = .normal ↔
      (¬(r.value < t.criticalMin ∨ t.criticalMax < r.value) ∧
        ¬(r.value < t.warningMin ∨ t.warningMax < r.value))) ∧
    (∀ (r' : SensorReading), getAlertLevel none r' = r'.alertLevel.getD .normal) := by
  refine ⟨?_, ?_, ?_, fun r' => rfl⟩ <;>
    · simp only [getAlertLevel, Bool.or_eq_true, decide_eq_true_eq]
      split_ifs with h1 h2 <;> simp_all <;> omega

/-- C3: Outside the loading state, `AdminRoute` renders its children iff the
user is authenticated with role 'superadmin' or 'projectadmin', and
`SuperAdminRoute` iff authenticated with role 'superadmin'; in both, an
unauthenticated user is redirected to `/login` and an authenticated user
lacking the role is redirected to `/`. -/
theorem route_guards_role_gated (s : AuthState) (h : s.loading = false) :
    (AdminRoute s = .children ↔
      isAuthenticated s = true ∧
        ∃ u, s.user = some u ∧ (u.role = "superadmin" ∨ u.role = "projectadmin")) ∧
    (SuperAdminRoute s = .children ↔
      isAuthenticated s = true ∧ ∃ u, s.user = some u ∧ u.role = "superadmin") ∧
    (isAuthenticated s = false →
      AdminRoute s = .navigate "/login" ∧ SuperAdminRoute s = .navigate "/login") ∧
    (∀ u, s.user = some u → ¬(u.role = "superadmin" ∨ u.role = "projectadmin") →
      AdminRoute s = .navigate "/") ∧
    (∀ u, s.user = some u → u.role ≠ "superadmin" → SuperAdminRoute s = .navigate "/") := by
  obtain ⟨ou, l⟩ := s
  cases h
  cases ou with
  | none => simp [AdminRoute, SuperAdminRoute, isAuthenticated, isAdmin, isSuperAdmin]
  | some u =>
    simp only [AdminRoute, SuperAdminRoute, isAuthenticated, isAdmin, isSuperAdmin,
      Option.isSome_some, Bool.not_true, if_false, Bool.false_eq_true, if_true]
    by_cases hs : u.role = "superadmin" <;> by_cases hp : u.role = "projectadmin" <;>
      simp_all

/-- Witness for C3: a logged-in project admin gets the admin children. -/
theorem route_guards_role_gated_witness :
    AdminRoute { user := some { role := "projectadmin" }, loading := false } =
      .children :=
  ((route_guards_role_gated { user := some { role := "projectadmin" }, loading := false }
    rfl).1).mpr ⟨rfl, ⟨{ role := "projectadmin" }, rfl, Or.inr rfl⟩⟩

/-- C4: A 401 response error on a request not yet marked `_retry` marks the
request retried, removes the stored 'user' entry and redirects to `/login`;
every other error leaves the browser state unchanged; and in every case the
promise is rejected with the error (its config possibly carrying the new
retry mark). -/
theorem interceptor_401_behavior (e : HttpError) (b : BrowserState) :
    (e.status = some 401 → e.config.retry = false →
      (responseErrorInterceptor e b).config.retry = true ∧
      (responseErrorInterceptor e b).browser.storedUser = none ∧
      (responseErrorInterceptor e b).browser.location = "/login") ∧
    (¬(e.status = some 401 ∧ e.config.retry = false) →
      (responseErrorInterceptor e b).browser = b) ∧
    (∃ cfg, (responseErrorInterceptor e b).promise = .error { e with config := cfg }) := by
  obtain ⟨st, ⟨rt⟩⟩ := e
  simp only [responseErrorInterceptor]
  by_cases h4 : st = some 401 <;> cases rt <;> simp_all

/-- Witness for C4: a first 401 clears the stored user and redirects. -/
theorem interceptor_401_behavior_witness :
    (responseErrorInterceptor { status := some 401, config := { retry := false } }
      { storedUser := some "alice", location := "/projects" }).browser.storedUser = none ∧
    (responseErrorInterceptor { status := some 500, config := { retry := false } }
      { storedUser := some "alice", location := "/projects" }).browser =
      { storedUser := some "alice", location := "/projects" } :=
  ⟨((interceptor_401_behavior { status := some 401, config := { retry := false } }
      { storedUser := some "alice", location := "/projects" }).1 rfl rfl).2.1,
    (interceptor_401_behavior { status := some 500, config := { retry := false } }
      { storedUser := some "alice", location := "/projects" }).2.1
      (by simp)⟩

/-- C5 counterexample: the claim that no client operation transmits,
creates, updates or deletes threshold data is false: `handleSaveThreshold`
with a selected sensor type issues an update-device-threshold request to
the backend. -/
theorem thresholds_not_color_only :
    handleSaveThreshold "dev1" (some "temperature")
        (fun _ => { values := ⟨18, 26, 15, 30, 10, 35⟩, unit := "°C" }) =
      [ApiRequest.updateDeviceThreshold "dev1" "temperature"
        { values := ⟨18, 26, 15, 30, 10, 35⟩, unit := "°C" }] ∧
    mutatesThresholdData
      (ApiRequest.updateDeviceThreshold "dev1" "temperature"
        { values := ⟨18, 26, 15, 30, 10, 35⟩, unit := "°C" }) = true := by
  exact ⟨rfl, rfl⟩

/-- C5 (amended): thresholds color-code chart points, but the client also
manages threshold records: the DeviceThresholds save/delete handlers issue
update/delete device-threshold requests whenever a sensor type is selected
(and nothing otherwise), and the ThresholdManagement submit/delete handlers
issue create/update/delete default-threshold requests. -/
theorem threshold_crud_handlers (deviceId st : String)
    (m : String → ThresholdValues) (form : ThresholdValues) (tm : TMState) (id : String) :
    handleSaveThreshold deviceId (some st) m =
      [.updateDeviceThreshold deviceId st (m st)] ∧
    handleSaveThreshold deviceId none m = [] ∧
    handleDeleteThreshold deviceId (some st) = [.deleteDeviceThreshold deviceId st] ∧
    handleDeleteThreshold deviceId none = [] ∧
    (tm.isEditing = true → tm.editingId.isSome = true →
      tmHandleSubmit tm form = [.updateDefaultThreshold tm.editingId form]) ∧
    (tm.isEditing = false → tm.isAdding = true →
      tmHandleSubmit tm form = [.updateDefaultThreshold none form]) ∧
    tmHandleDelete true id = [.deleteThreshold id] ∧
    (∀ req ∈ handleSaveThreshold deviceId (some st) m, mutatesThresholdData req = true) := by
  refine ⟨rfl, rfl, rfl, rfl, ?_, ?_, rfl, ?_⟩
  · intro he hi
    simp [tmHandleSubmit, he, hi]
  · intro he ha
    simp [tmHandleSubmit, he, ha]
  · intro req hreq
    simp only [handleSaveThreshold, List.mem_singleton] at hreq
    subst hreq
    rfl

/-- Witness for the amended C5: concrete save and submit both issue
threshold-mutating requests. -/
theorem threshold_crud_handlers_witness :
    tmHandleSubmit { isEditing := true, isAdding := false, editingId := some "t1" }
        { values := ⟨18, 26, 15, 30, 10, 35⟩, unit := "°C" } =
      [.updateDefaultThreshold (some "t1") { values := ⟨18, 26, 15, 30, 10, 35⟩, unit := "°C" }] :=
  (threshold_crud_handlers "dev1" "temperature"
    (fun _ => { values := ⟨18, 26, 15, 30, 10, 35⟩, unit := "°C" })
    { values := ⟨18, 26, 15, 30, 10, 35⟩, unit := "°C" }
    { isEditing := true, isAdding := false, editingId := some "t1" } "t1").2.2.2.2.1 rfl rfl

/-- C6 counterexample: the claim that a failed dashboard fetch is not
re-attempted and that no client reconnection policy is configured is false:
at `retryCount = 0` the catch block schedules a retry after 1000 ms, and the
socket module passes an explicit reconnection policy to `io(...)`. -/
theorem dashboard_fetch_does_retry :
    dashboardFetchErrorAction 0 = .scheduleRetry 1 1000 ∧
    socketOptions.reconnection = true ∧
    socketOptions.reconnectionAttempts = 5 := by
  exact ⟨rfl, rfl, rfl⟩

/-- C6 (amended): a failed dashboard data fetch is re-attempted up to three
times with exponential backoff (1 s, 2 s, 4 s), after which the client
gives up; and the client configures its own socket reconnection policy
(reconnection on, 5 attempts, delays from 1 s capped at 5 s). -/
theorem dashboard_retry_policy (retryCount : Nat) :
    (retryCount < 3 →
      dashboardFetchErrorAction retryCount =
        .scheduleRetry (retryCount + 1) (2 ^ retryCount * 1000)) ∧
    (3 ≤ retryCount → dashboardFetchErrorAction retryCount = .giveUp) ∧
    socketOptions.reconnection = true ∧
    socketOptions.reconnectionAttempts = 5 ∧
    socketOptions.reconnectionDelay = 1000 ∧
    socketOptions.reconnectionDelayMax = 5000 := by
  refine ⟨?_, ?_, rfl, rfl, rfl, rfl⟩
  · intro h
    simp [dashboardFetchErrorAction, h]
  · intro h
    simp [dashboardFetchErrorAction, Nat.not_lt.mpr h]

/-- Witness for the amended C6: the second failure is retried after 2 s and
the fourth failure gives up. -/
theorem dashboard_retry_policy_witness :
    dashboardFetchErrorAction 1 = .scheduleRetry 2 2000 ∧
    dashboardFetchErrorAction 3 = .giveUp :=
  ⟨(dashboard_retry_policy 1).1 (by decide),
    (dashboard_retry_policy 3).2.1 (by decide)⟩

/-! Helper lemmas for the window-bound and sortedness claims. -/

/-- The comparator used by the JS sort is transitive. -/
theorem tsLe_trans : ∀ (a b c : SensorReading), tsLe a b → tsLe b c → tsLe a c := by
  intro a b c hab hbc
  simp only [tsLe, decide_eq_true_eq] at *
  omega

/-- The comparator used by the JS sort is total. -/
theorem tsLe_total : ∀ (a b : SensorReading), tsLe a b || tsLe b a := by
  intro a b
  simp only [tsLe, Bool.or_eq_true, decide_eq_true_eq]
  omega

/-- Unfolding `updateReadings` through its local variable. -/
theorem updateReadings_eq (prev : List SensorReading) (r : SensorReading) :
    updateReadings prev r =
      if (sensorDataStep prev r).length > 100 then (sensorDataStep prev r).tail
      else sensorDataStep prev r := rfl

/-- The sorted append has one more element than the input window. -/
theorem sensorDataStep_length (prev : List SensorReading) (r : SensorReading) :
    (sensorDataStep prev r).length = prev.length + 1 := by
  simp [sensorDataStep]

/-- One DeviceDashboard window update keeps the window within 100. -/
theorem updateReadings_length_le (prev : List SensorReading) (r : SensorReading)
    (h : prev.length ≤ 100) : (updateReadings prev r).length ≤ 100 := by
  rw [updateReadings_eq]
  have hlen := sensorDataStep_length prev r
  split
  · simp only [List.length_tail]
    omega
  · omega

/-- One full DeviceDashboard handler step preserves the 100-bound on every
per-sensor-type window. -/
theorem handleNewSensorDataDD_bounded (id : String)
    (prevData : List (String × List SensorReading)) (r : SensorReading)
    (h : ∀ p ∈ prevData, p.2.length ≤ 100) :
    ∀ p ∈ handleNewSensorDataDD id prevData r, p.2.length ≤ 100 := by
  intro p hp
  unfold handleNewSensorDataDD at hp
  split at hp
  · split at hp
    · simp only [List.mem_map] at hp
      obtain ⟨q, hq, rfl⟩ := hp
      split
      · exact updateReadings_length_le _ _ (h q hq)
      · exact h q hq
    · exact h p hp
  · exact h p hp

/-- One chart push preserves the 100-bound together with the
labels/data-length equality. -/
theorem chartPush_bounded (c : ChartBuffer) (l : String) (v : Int)
    (hl : c.labels.length ≤ 100) (hd : c.data.length = c.labels.length) :
    (chartPush c l v).labels.length ≤ 100 ∧
    (chartPush c l v).data.length = (chartPush c l v).labels.length := by
  simp only [chartPush]
  split <;> simp_all [List.length_tail] <;> omega

/-- One Dashboard handler step always yields at most 50 entries. -/
theorem handleDashboardNewData_length (prev : List DashReading) (d : DashReading) :
    (handleDashboardNewData prev d).length ≤ 50 := by
  unfold handleDashboardNewData jsSliceLast
  simp only [List.length_drop]
  omega

/-- A property preserved by each step of a fold holds at the end. -/
theorem foldl_preserves {σ ε : Type} (P : σ → Prop) (f : σ → ε → σ)
    (hf : ∀ s e, P s → P (f s e)) :
    ∀ (events : List ε) (s : σ), P s → P (events.foldl f s)
  | [], _, hs => hs
  | e :: es, s, hs => foldl_preserves P f hf es (f s e) (hf s e hs)

/-- C2: Every in-memory window of streamed readings is bounded: starting
within the bound, any sequence of `new-sensor-data` events leaves every
per-sensor-type DeviceDashboard window at ≤ 100 entries, leaves the
SensorData chart buffer at ≤ 100 points, and leaves the Dashboard
recent-data list at ≤ 50 entries. -/
theorem windows_bounded (id : String)
    (init : List (String × List SensorReading)) (events : List SensorReading)
    (hinit : ∀ p ∈ init, p.2.length ≤ 100)
    (c : ChartBuffer) (points : List (String × Int))
    (hc : c.labels.length ≤ 100) (hcd : c.data.length = c.labels.length)
    (recent : List DashReading) (dashEvents : List DashReading)
    (hrecent : recent.length ≤ 50) :
    (∀ p ∈ events.foldl (handleNewSensorDataDD id) init, p.2.length ≤ 100) ∧
    (points.foldl (fun b q => chartPush b q.1 q.2) c).labels.length ≤ 100 ∧
    (points.foldl (fun b q => chartPush b q.1 q.2) c).data.length ≤ 100 ∧
    (dashEvents.foldl handleDashboardNewData recent).length ≤ 50 := by
  have hchart := foldl_preserves
    (fun b : ChartBuffer => b.labels.length ≤ 100 ∧ b.data.length = b.labels.length)
    (fun b q => chartPush b q.1 q.2)
    (fun b q hb => chartPush_bounded b q.1 q.2 hb.1 hb.2) points c ⟨hc, hcd⟩
  refine ⟨?_, hchart.1, ?_, ?_⟩
  · exact foldl_preserves
      (fun m : List (String × List SensorReading) => ∀ p ∈ m, p.2.length ≤ 100)
      (handleNewSensorDataDD id)
      (fun m e hm => handleNewSensorDataDD_bounded id m e hm) events init hinit
  · omega
  · exact foldl_preserves (fun l : List DashReading => l.length ≤ 50)
      handleDashboardNewData
      (fun s e _ => handleDashboardNewData_length s e) dashEvents recent hrecent

/-- Witness for C2 at concrete small states and event sequences. -/
theorem windows_bounded_witness :
    ((List.replicate 3
        { device := "d1", sensorType := "temperature", value := 21, timestamp := 1 :
          DashReading }).foldl
      handleDashboardNewData []).length ≤ 50 :=
  (windows_bounded "d1" [("temperature", [])]
    [{ device := .byId "d1", sensorType := "temperature", value := 20, unit := "C",
        timestamp := 5, isAlert := false, alertLevel := none, alertMessage := none }]
    (by intro p hp; simp only [List.mem_singleton] at hp; subst hp; simp)
    { labels := [], data := [] } [("12:00", 20)] (by simp) (by simp)
    []
    (List.replicate 3
      { device := "d1", sensorType := "temperature", value := 21, timestamp := 1 })
    (by simp)).2.2.2

/-- C9: Appending a streamed reading to a timestamp-sorted window, re-sorting
by timestamp, and optionally dropping the oldest entry yields a window that
is again sorted non-decreasingly by timestamp and that contains the new
reading unless it was dropped as the oldest entry. -/
theorem stream_insert_sorted (prev : List SensorReading) (r : SensorReading)
    (hs : List.Pairwise (fun a b => a.timestamp ≤ b.timestamp) prev) :
    List.Pairwise (fun a b => a.timestamp ≤ b.timestamp) (sensorDataStep prev r) ∧
    List.Pairwise (fun a b => a.timestamp ≤ b.timestamp) (updateReadings prev r) ∧
    r ∈ sensorDataStep prev r ∧
    (r ∈ updateReadings prev r ∨
      ((sensorDataStep prev r).head? = some r ∧
        updateReadings prev r = (sensorDataStep prev r).tail)) := by
  have hsorted : (sensorDataStep prev r).Pairwise (fun a b => a.timestamp ≤ b.timestamp) := by
    refine (List.sorted_mergeSort tsLe_trans tsLe_total (prev ++ [r])).imp ?_
    intro a b h
    simpa [tsLe] using h
  have hmem : r ∈ sensorDataStep prev r := by
    simp [sensorDataStep]
  refine ⟨hsorted, ?_, hmem, ?_⟩
  · rw [updateReadings_eq]
    split
    · exact List.Pairwise.sublist (List.tail_sublist _) hsorted
    · exact hsorted
  · rw [updateReadings_eq]
    split
    · by_cases hin : r ∈ (sensorDataStep prev r).tail
      · exact Or.inl hin
      · refine Or.inr ⟨?_, rfl⟩
        cases hcase : sensorDataStep prev r with
        | nil => rw [hcase] at hmem; cases hmem
        | cons a t =>
          rw [hcase] at hmem hin
          rcases List.mem_cons.mp hmem with h | h
          · simp [h]
          · exact absurd h (by simpa using hin)
    · exact Or.inl hmem

/-- Witness for C9: inserting into a small sorted window. -/
theorem stream_insert_sorted_witness :
    { device := DeviceRef.byId "d1", sensorType := "temperature", value := 22, unit := "C",
      timestamp := 7, isAlert := false, alertLevel := none, alertMessage := none :
      SensorReading } ∈
      sensorDataStep
        [{ device := .byId "d1", sensorType := "temperature", value := 20, unit := "C",
            timestamp := 3, isAlert := false, alertLevel := none, alertMessage := none },
          { device := .byId "d1", sensorType := "temperature", value := 21, unit := "C",
            timestamp := 9, isAlert := false, alertLevel := none, alertMessage := none }]
        { device := .byId "d1", sensorType := "temperature", value := 22, unit := "C",
          timestamp := 7, isAlert := false, alertLevel := none, alertMessage := none } :=
  (stream_insert_sorted
    [{ device := .byId "d1", sensorType := "temperature", value := 20, unit := "C",
        timestamp := 3, isAlert := false, alertLevel := none, alertMessage := none },
      { device := .byId "d1", sensorType := "temperature", value := 21, unit := "C",
        timestamp := 9, isAlert := false, alertLevel := none, alertMessage := none }]
    { device := .byId "d1", sensorType := "temperature", value := 22, unit := "C",
      timestamp := 7, isAlert := false, alertLevel := none, alertMessage := none }
    (by simp)).2.2.1

/-- Elements surviving the Dashboard handler's filter never carry the new
reading's (device, sensorType) key. -/
theorem dash_filtered_no_key (prev : List DashReading) (d : DashReading) :
    (prev.filter
      (fun item => !(item.device == d.device && item.sensorType == d.sensorType))).countP
      (fun x => decide (dashKey x = dashKey d)) = 0 := by
  rw [List.countP_eq_zero]
  intro a ha
  have := (List.mem_filter.mp ha).2
  simp only [Bool.not_eq_eq_eq_not, Bool.not_true, Bool.and_eq_false_imp,
    beq_eq_false_iff_ne, ne_eq, Bool.and_eq_false_iff, beq_iff_eq] at this
  simp only [dashKey, decide_eq_true_eq, Prod.mk.injEq, not_and]
  intro hdev
  exact this hdev

/-- C10: If each (device, sensorType) pair occurs at most once in the
Dashboard recent-data list, then after the `new-sensor-data` handler the new
reading's pair occurs exactly once and every other pair still occurs at most
once. -/
theorem dashboard_dedup (prev : List DashReading) (d : DashReading)
    (h : ∀ k : String × String, prev.countP (fun x => decide (dashKey x = k)) ≤ 1) :
    (handleDashboardNewData prev d).countP (fun x => decide (dashKey x = dashKey d)) = 1 ∧
    ∀ k : String × String, k ≠ dashKey d →
      (handleDashboardNewData prev d).countP (fun x => decide (dashKey x = k)) ≤ 1 := by
  have hout : handleDashboardNewData prev d =
      ((prev.filter
        (fun item => !(item.device == d.device && item.sensorType == d.sensorType))) ++
        [d]).drop
        (((prev.filter
          (fun item => !(item.device == d.device && item.sensorType == d.sensorType))) ++
          [d]).length - 50) := rfl
  set filtered := prev.filter
    (fun item => !(item.device == d.device && item.sensorType == d.sensorType)) with hf
  have hk : (filtered ++ [d]).length - 50 ≤ filtered.length := by
    simp only [List.length_append, List.length_singleton]
    omega
  have hsplit : (filtered ++ [d]).drop ((filtered ++ [d]).length - 50) =
      filtered.drop ((filtered ++ [d]).length - 50) ++ [d] :=
    List.drop_append_of_le_length hk
  rw [hout, hsplit]
  have hdropzero :
      (filtered.drop ((filtered ++ [d]).length - 50)).countP
        (fun x => decide (dashKey x = dashKey d)) = 0 :=
    Nat.le_zero.mp (dash_filtered_no_key prev d ▸
      (List.drop_sublist _ _).countP_le (p := fun x => decide (dashKey x = dashKey d)))
  constructor
  · rw [List.countP_append, hdropzero]
    simp [List.countP_cons]
  · intro k hkne
    rw [List.countP_append]
    have h1 : ([d].countP (fun x => decide (dashKey x = k))) = 0 := by
      simp only [List.countP_cons, List.countP_nil]
      simp [Ne.symm hkne]
    have h2 : (filtered.drop ((filtered ++ [d]).length - 50)).countP
        (fun x => decide (dashKey x = k)) ≤ prev.countP (fun x => decide (dashKey x = k)) :=
      le_trans ((List.drop_sublist _ _).countP_le (p := fun x => decide (dashKey x = k)))
        ((List.filter_sublist _).countP_le (p := fun x => decide (dashKey x = k)))
    have := h k
    omega

/-- Witness for C10: replacing the only entry for (d1, temperature). -/
theorem dashboard_dedup_witness :
    (handleDashboardNewData
      [{ device := "d1", sensorType := "temperature", value := 20, timestamp := 0 }]
      { device := "d1", sensorType := "temperature", value := 21, timestamp := 1 }).countP
      (fun x => decide (dashKey x = ("d1", "temperature"))) = 1 :=
  (dashboard_dedup
    [{ device := "d1", sensorType := "temperature", value := 20, timestamp := 0 }]
    { device := "d1", sensorType := "temperature", value := 21, timestamp := 1 }
    (by
      intro k
      simp only [List.countP_cons, List.countP_nil, Nat.zero_add, decide_eq_true_eq]
      split <;> omega)).1

/-- C7: `exportToCSV` shows 'No data to export' and produces no file iff the
sensor-data list is empty; otherwise it produces a file whose first line is
the fixed header and which has exactly one further line per reading, in
stored order, with 'Yes'/'No' for `isAlert` and `''` for a missing
`alertMessage`. -/
theorem exportToCSV_format (fmt : Nat → String) (l : List SensorReading) :
    (exportToCSV fmt l = .error "No data to export" ↔ l = []) ∧
    (∀ msg, exportToCSV fmt l = .error msg → msg = "No data to export") ∧
    (l ≠ [] → exportToCSV fmt l = .file (String.intercalate "\n" (csvLines fmt l))) ∧
    (csvLines fmt l).head? =
      some "Timestamp,Sensor Type,Value,Unit,Is Alert,Alert Message" ∧
    (csvLines fmt l).length = l.length + 1 ∧
    ∀ (i : Nat) (hi : i < l.length) (hi2 : i + 1 < (csvLines fmt l).length),
      (csvLines fmt l).get ⟨i + 1, hi2⟩ =
        String.intercalate ","
          [fmt (l.get ⟨i, hi⟩).timestamp, (l.get ⟨i, hi⟩).sensorType,
            toString (l.get ⟨i, hi⟩).value, (l.get ⟨i, hi⟩).unit,
            if (l.get ⟨i, hi⟩).isAlert then "Yes" else "No",
            (l.get ⟨i, hi⟩).alertMessage.getD ""] := by
  refine ⟨?_, ?_, ?_, rfl, by simp [csvLines], ?_⟩
  · simp only [exportToCSV]
    split <;> simp_all [List.length_eq_zero]
  · intro msg hmsg
    simp only [exportToCSV] at hmsg
    split at hmsg
    · cases hmsg
      rfl
    · cases hmsg
  · intro hne
    simp only [exportToCSV]
    rw [if_neg (by simpa [List.length_eq_zero] using hne)]
  · intro i hi hi2
    simp only [csvLines, csvRow, List.get_eq_getElem, List.getElem_cons_succ,
      List.getElem_map]

/-- Witness for C7: exporting one alerting reading with no alert message. -/
theorem exportToCSV_format_witness :
    exportToCSV (fun _ => "1/1/2024, 12:00:00 AM")
      [{ device := .byId "d1", sensorType := "temperature", value := 42, unit := "C",
          timestamp := 0, isAlert := true, alertLevel := some .critical,
          alertMessage := none }] =
      .file (String.intercalate "\n" (csvLines (fun _ => "1/1/2024, 12:00:00 AM")
        [{ device := .byId "d1", sensorType := "temperature", value := 42, unit := "C",
            timestamp := 0, isAlert := true, alertLevel := some .critical,
            alertMessage := none }])) :=
  (exportToCSV_format (fun _ => "1/1/2024, 12:00:00 AM")
    [{ device := .byId "d1", sensorType := "temperature", value := 42, unit := "C",
        timestamp := 0, isAlert := true, alertLevel := some .critical,
        alertMessage := none }]).2.2.1 (by simp)

/-- C8: For every value of the time-range selector, `fetchData` requests the
same window — the last 24 hours — so the selection has no effect on the data
requested. -/
theorem fetch_window_fixed (now : Int) :
    (∀ timeRange ∈ timeRangeOptions,
      fetchWindow timeRange now = (now - 24 * msPerHour, now)) ∧
    (∀ tr₁ tr₂ : String, fetchWindow tr₁ now = fetchWindow tr₂ now) := by
  have key : ∀ tr : String, fetchWindow tr now = (now - 24 * msPerHour, now) := by
    intro tr
    simp only [fetchWindow, jsSetHours, Prod.mk.injEq]
    exact ⟨by ring, trivial⟩
  exact ⟨fun tr _ => key tr, fun a b => (key a).trans (key b).symm⟩

/-- Witness for C8: selecting '7d' still requests the last 24 hours. -/
theorem fetch_window_fixed_witness :
    fetchWindow "7d" 1700000000000 = (1700000000000 - 24 * msPerHour, 1700000000000) :=
  (fetch_window_fixed 1700000000000).1 "7d" (by simp [timeRangeOptions])

end RAS
